import Mathlib

/-!
Verification of the schema-to-DDL generation and database lifecycle engine of
the vdt-dashboard-backend repository (Go). The definitions below are a shallow
embedding of the Go source: `models` (services/models packages), the
`validatorService`, the `sqlGeneratorService` and the `databaseManagerService`
of `services/schema_service.go`, and the `schemaService` create/update
orchestration. Stateful database and repository calls are modelled by explicit
effect oracles and event traces; pure string building follows the Go code
line by line.
-/

namespace Vdt

/-- A single-quote character as a string, used for SQL literal quoting
(mirrors the quote characters inside the Go format strings). -/
def sq : String := String.singleton (Char.ofNat 39)

/-- Models the dynamic (Go `interface\x7b\x7d`) value held in
`Column.DefaultValue` after JSON decoding: a string, a bool, or a number.
Go renders the numeric case with `fmt` verb `%v` on a `float64`; the `num`
constructor carries that rendering, since the claims only concern how the
already-rendered number is spliced into the SQL. -/
inductive GoValue where
  | str (s : String)
  | boolean (b : Bool)
  | num (rendered : String)
deriving Repr, DecidableEq

/-- `models.Column` (UI-only fields aside, which no generator code reads). -/
structure Column where
  id : String := ""
  name : String := ""
  dataType : String := ""
  length : Option Int := none
  precision : Option Int := none
  scale : Option Int := none
  nullable : Bool := false
  primaryKey : Bool := false
  autoIncrement : Bool := false
  unique : Bool := false
  defaultValue : Option GoValue := none
deriving Repr, DecidableEq

/-- `models.Table` (the UI `position` and `indexes` fields are passthrough
data that no validator or generator code reads, so they are omitted). -/
structure Table where
  id : String := ""
  name : String := ""
  columns : List Column := []
deriving Repr, DecidableEq

/-- `models.ForeignKey`; absent optional JSON fields decode to `""`. -/
structure ForeignKey where
  id : String := ""
  name : String := ""
  sourceTableId : String := ""
  sourceColumnId : String := ""
  targetTableId : String := ""
  targetColumnId : String := ""
  onDelete : String := ""
  onUpdate : String := ""
deriving Repr, DecidableEq

/-- `models.SchemaData`. -/
structure SchemaData where
  tables : List Table := []
  foreignKeys : List ForeignKey := []
  version : String := ""
  exportedAt : String := ""
deriving Repr, DecidableEq

/-- `models.ValidationError`. -/
structure ValidationError where
  field : String
  message : String
  code : String
deriving Repr, DecidableEq

/-- `models.ValidationResult` (`generatedSQL` is never set by the service). -/
structure ValidationResult where
  valid : Bool
  errors : List ValidationError
  warnings : List String
deriving Repr, DecidableEq

/-- `models.SchemaValidationRequest`. -/
structure SchemaValidationRequest where
  name : String := ""
  tables : List Table := []
  foreignKeys : List ForeignKey := []
deriving Repr, DecidableEq

/-- `models.SupportedDataTypes`: membership in the Go `map[string]bool`
literal holding the thirteen supported type names. -/
def SupportedDataTypes (dataType : String) : Bool :=
  dataType == "INT" || dataType == "BIGINT" || dataType == "VARCHAR" ||
  dataType == "TEXT" || dataType == "BOOLEAN" || dataType == "TIMESTAMP" ||
  dataType == "DATE" || dataType == "TIME" || dataType == "DECIMAL" ||
  dataType == "FLOAT" || dataType == "DOUBLE" || dataType == "JSON" ||
  dataType == "UUID"

/-- `models.ValidForeignKeyActions`: membership in the Go `map[string]bool`
literal of the four referential actions. -/
def ValidForeignKeyActions (action : String) : Bool :=
  action == "CASCADE" || action == "RESTRICT" || action == "SET NULL" ||
  action == "NO ACTION"

/-- The `UNSUPPORTED_DATA_TYPE` validation error the Go loop appends for
table index `i`, column index `j` (its `Field` is built with
`fmt.Sprintf("tables[%d].columns[%d].dataType", i, j)`). -/
def unsupportedTypeError (i j : Nat) (column : Column) : ValidationError :=
  { field := "tables[" ++ toString i ++ "].columns[" ++ toString j ++ "].dataType"
    message := "Unsupported data type: " ++ column.dataType
    code := "UNSUPPORTED_DATA_TYPE" }

/-- The inner Go loop of `ValidateSchema` over the columns of the table at
index `i`, starting at column index `j`: one error per unsupported type. -/
def columnTypeErrors (i : Nat) : Nat → List Column → List ValidationError
  | _, [] => []
  | j, column :: rest =>
    (if SupportedDataTypes column.dataType then [] else [unsupportedTypeError i j column])
      ++ columnTypeErrors i (j + 1) rest

/-- The outer Go loop of `ValidateSchema` collecting data-type errors,
starting at table index `i`. -/
def dataTypeErrors : Nat → List Table → List ValidationError
  | _, [] => []
  | i, table :: rest => columnTypeErrors i 0 table.columns ++ dataTypeErrors (i + 1) rest

/-- The warning string `ValidateSchema` appends for a table that has no
column flagged as primary key. -/
def noPrimaryKeyWarning (table : Table) : String :=
  "Table " ++ sq ++ table.name ++ sq ++ " has no primary key defined"

/-- The per-table primary-key pass of the Go `ValidateSchema` loop: one
warning for every table with no `primaryKey` column, in input order. -/
def primaryKeyWarnings : List Table → List String
  | [] => []
  | table :: rest =>
    (if table.columns.any (fun c => c.primaryKey) then [] else [noPrimaryKeyWarning table])
      ++ primaryKeyWarnings rest

/-- `validatorService.ValidateSchema`. The Go method returns
`(*ValidationResult, error)` with the error always `nil`, hence `.ok`. -/
def ValidateSchema (request : SchemaValidationRequest) : Except String ValidationResult :=
  let missingTables : List ValidationError :=
    if request.tables.isEmpty then
      [{ field := "tables", message := "At least one table is required", code := "MISSING_TABLES" }]
    else []
  let errors := missingTables ++ dataTypeErrors 0 request.tables
  Except.ok
    { valid := errors.isEmpty
      errors := errors
      warnings := primaryKeyWarnings request.tables }

/-- The data-type switch inside `sqlGeneratorService.generateColumnDefinition`
(the text written for the SQL type expression of one column). -/
def dataTypeSQL (column : Column) : String :=
  if column.dataType = "INT" then
    if column.autoIncrement then "SERIAL" else "INTEGER"
  else if column.dataType = "BIGINT" then
    if column.autoIncrement then "BIGSERIAL" else "BIGINT"
  else if column.dataType = "VARCHAR" then
    let l : Int := match column.length with
      | some l => if l > 0 then l else 255
      | none => 255
    "VARCHAR(" ++ toString l ++ ")"
  else if column.dataType = "TEXT" then "TEXT"
  else if column.dataType = "BOOLEAN" then "BOOLEAN"
  else if column.dataType = "TIMESTAMP" then "TIMESTAMP WITH TIME ZONE"
  else if column.dataType = "DATE" then "DATE"
  else if column.dataType = "TIME" then "TIME"
  else if column.dataType = "DECIMAL" then
    "DECIMAL(" ++ toString (column.precision.getD 10) ++ "," ++ toString (column.scale.getD 2) ++ ")"
  else if column.dataType = "FLOAT" then "REAL"
  else if column.dataType = "DOUBLE" then "DOUBLE PRECISION"
  else if column.dataType = "JSON" then "JSONB"
  else if column.dataType = "UUID" then "UUID"
  else "TEXT"

/-- `sqlGeneratorService.generateColumnDefinition`: name, type,
`NOT NULL` when not nullable, the explicit default (strings quoted and only
written when non-empty, bools with `%t`, numbers with `%v`), then the
implicit `gen_random_uuid()` / `CURRENT_TIMESTAMP` defaults when no explicit
default is present. -/
def generateColumnDefinition (column : Column) : String :=
  let s1 := column.name ++ " " ++ dataTypeSQL column
  let s2 := if !column.nullable then s1 ++ " NOT NULL" else s1
  let s3 := match column.defaultValue with
    | some (.str v) => if v = "" then s2 else s2 ++ " DEFAULT " ++ sq ++ v ++ sq
    | some (.boolean b) => s2 ++ " DEFAULT " ++ (if b then "true" else "false")
    | some (.num rendered) => s2 ++ " DEFAULT " ++ rendered
    | none => s2
  let s4 := if column.dataType = "UUID" ∧ column.defaultValue = none then
      s3 ++ " DEFAULT gen_random_uuid()"
    else s3
  if column.dataType = "TIMESTAMP" ∧ column.defaultValue = none then
    s4 ++ " DEFAULT CURRENT_TIMESTAMP"
  else s4

/-- `sqlGeneratorService.GenerateCreateDatabase`. -/
def GenerateCreateDatabase (databaseName : String) : Except String String :=
  Except.ok ("CREATE DATABASE " ++ databaseName ++ ";")

/-- The `CREATE TABLE` statement the Go loop body of `GenerateCreateTables`
builds for one table. -/
def createTableStatement (table : Table) : String :=
  let columns := table.columns.map generateColumnDefinition
  let primaryKeys := (table.columns.filter (fun c => c.primaryKey)).map (fun c => c.name)
  let uniqueConstraints :=
    (table.columns.filter (fun c => c.unique && !c.primaryKey)).map
      (fun c => "UNIQUE (" ++ c.name ++ ")")
  let s1 := "CREATE TABLE " ++ table.name ++ " (\n" ++ "    "
    ++ String.intercalate ",\n    " columns
  let s2 := if primaryKeys.length > 0 then
      s1 ++ ",\n    PRIMARY KEY (" ++ String.intercalate ", " primaryKeys ++ ")"
    else s1
  let s3 := uniqueConstraints.foldl (fun acc c => acc ++ ",\n    " ++ c) s2
  s3 ++ "\n);"

/-- `sqlGeneratorService.GenerateCreateTables`: one `CREATE TABLE` statement
per table, in input order; the Go method never returns a non-nil error. -/
def GenerateCreateTables (schemaData : SchemaData) : Except String (List String) :=
  Except.ok (schemaData.tables.map createTableStatement)

/-- Lookup in an insertion-ordered association list with Go `map` write
semantics: a later insertion of the same key overwrites an earlier one, so
the binding in force is the last one in insertion order. -/
def mapLookup (m : List (String × String)) (k : String) : Option String :=
  (m.reverse.find? (fun p => p.1 == k)).map (fun p => p.2)

/-- The `tableMap` of `GenerateForeignKeys`: table id to table name,
inserted in table input order. -/
def tableMapOf (schemaData : SchemaData) : List (String × String) :=
  schemaData.tables.map (fun t => (t.id, t.name))

/-- The `columnMap` of `GenerateForeignKeys`: column id to column name for
the columns of ALL tables, inserted in table-then-column input order and
not scoped to any table. -/
def columnMapOf (schemaData : SchemaData) : List (String × String) :=
  (schemaData.tables.map (fun t => t.columns.map (fun c => (c.id, c.name)))).flatten

/-- The `ALTER TABLE ... ADD CONSTRAINT` statement format string of
`GenerateForeignKeys`, with its seven arguments. -/
def fkStatement (sourceTable constraintName sourceColumn targetTable targetColumn
    onDelete onUpdate : String) : String :=
  "ALTER TABLE " ++ sourceTable ++ " ADD CONSTRAINT " ++ constraintName
    ++ " FOREIGN KEY (" ++ sourceColumn ++ ") REFERENCES " ++ targetTable
    ++ " (" ++ targetColumn ++ ") ON DELETE " ++ onDelete ++ " ON UPDATE " ++ onUpdate ++ ";"

/-- The loop body of `GenerateForeignKeys` for one foreign key: the four map
lookups, the `continue` when any fails, and otherwise the statement with the
derived constraint name and the validated referential actions. -/
def resolveFK (tableMap columnMap : List (String × String)) (fk : ForeignKey) :
    Option String :=
  match mapLookup tableMap fk.sourceTableId, mapLookup tableMap fk.targetTableId,
      mapLookup columnMap fk.sourceColumnId, mapLookup columnMap fk.targetColumnId with
  | some sourceTable, some targetTable, some sourceColumn, some targetColumn =>
    let constraintName :=
      if fk.name = "" then "fk_" ++ sourceTable ++ "_" ++ sourceColumn else fk.name
    let onDelete :=
      if fk.onDelete ≠ "" ∧ ValidForeignKeyActions fk.onDelete then fk.onDelete else "RESTRICT"
    let onUpdate :=
      if fk.onUpdate ≠ "" ∧ ValidForeignKeyActions fk.onUpdate then fk.onUpdate else "RESTRICT"
    some (fkStatement sourceTable constraintName sourceColumn targetTable targetColumn
      onDelete onUpdate)
  | _, _, _, _ => none

/-- `sqlGeneratorService.GenerateForeignKeys`: builds the two lookup maps
over the whole schema, then emits one statement per resolvable foreign key
in input order, silently skipping the unresolvable ones; the Go method never
returns a non-nil error. -/
def GenerateForeignKeys (schemaData : SchemaData) : Except String (List String) :=
  Except.ok (schemaData.foreignKeys.filterMap
    (resolveFK (tableMapOf schemaData) (columnMapOf schemaData)))

/-- An observable database side effect of `RegenerateDatabase`: the
best-effort drop, the `CREATE DATABASE`, the warning log after a failed
drop, the connection to the fresh database, and each executed statement. -/
inductive DBEvent where
  | dropDatabase (databaseName : String)
  | logWarning (message : String)
  | createDatabase (databaseName : String)
  | connect (databaseName : String)
  | exec (statement : String)
deriving Repr, DecidableEq

/-- Oracle for the database side of `RegenerateDatabase`: the error (if any)
each external operation would report. `execErr s` is the driver error for
executing statement `s` on the fresh database, `none` meaning success. -/
structure DBEnv where
  dropErr : Option String := none
  createErr : Option String := none
  connectErr : Option String := none
  execErr : String → Option String := fun _ => none

/-- Step 1 of `RegenerateDatabase`: the drop is always attempted and a
failure is only logged (`log.Printf` warning), never propagated. -/
def dropEvents (env : DBEnv) (databaseName : String) : List DBEvent :=
  match env.dropErr with
  | some e =>
    [DBEvent.dropDatabase databaseName,
     DBEvent.logWarning ("Failed to drop database " ++ databaseName ++ ": " ++ e)]
  | none => [DBEvent.dropDatabase databaseName]

/-- The Go loop executing a statement list with `db.Exec`, aborting on the
first failure: the events for the statements actually executed, and the
wrapped error (`tag ++ ": " ++ driver error ++ "\nStatement: " ++ statement`)
of the failing statement, if any. -/
def execStatements (execErr : String → Option String) (tag : String) :
    List String → List DBEvent × Option String
  | [] => ([], none)
  | statement :: rest =>
    match execErr statement with
    | some e =>
      ([DBEvent.exec statement], some (tag ++ ": " ++ e ++ "\nStatement: " ++ statement))
    | none =>
      let r := execStatements execErr tag rest
      (DBEvent.exec statement :: r.1, r.2)

/-- `databaseManagerService.RegenerateDatabase`: drop (warn-only), create
(fatal), connect (fatal), generate and execute all `CREATE TABLE`
statements, then generate and execute all foreign-key `ALTER TABLE`
statements, aborting on the first failing statement. Returns the list of
database events in order together with the Go error result. -/
def RegenerateDatabase (env : DBEnv) (schemaData : SchemaData) (databaseName : String) :
    List DBEvent × Except String Unit :=
  let d := dropEvents env databaseName
  match env.createErr with
  | some e =>
    (d ++ [DBEvent.createDatabase databaseName], Except.error ("failed to create database: " ++ e))
  | none =>
  match env.connectErr with
  | some e =>
    (d ++ [DBEvent.createDatabase databaseName, DBEvent.connect databaseName],
     Except.error ("failed to connect to new database: " ++ e))
  | none =>
  match GenerateCreateTables schemaData with
  | Except.error e =>
    (d ++ [DBEvent.createDatabase databaseName, DBEvent.connect databaseName],
     Except.error ("failed to generate table statements: " ++ e))
  | Except.ok tableStatements =>
  let t := execStatements env.execErr "failed to execute table statement" tableStatements
  match t.2 with
  | some e =>
    (d ++ [DBEvent.createDatabase databaseName, DBEvent.connect databaseName] ++ t.1,
     Except.error e)
  | none =>
  match GenerateForeignKeys schemaData with
  | Except.error e =>
    (d ++ [DBEvent.createDatabase databaseName, DBEvent.connect databaseName] ++ t.1,
     Except.error ("failed to generate foreign key statements: " ++ e))
  | Except.ok fkStatements =>
  let f := execStatements env.execErr "failed to execute foreign key statement" fkStatements
  match f.2 with
  | some e =>
    (d ++ [DBEvent.createDatabase databaseName, DBEvent.connect databaseName] ++ t.1 ++ f.1,
     Except.error e)
  | none =>
    (d ++ [DBEvent.createDatabase databaseName, DBEvent.connect databaseName] ++ t.1 ++ f.1,
     Except.ok ())

/-- `models.CreateSchemaRequest`. -/
structure CreateSchemaRequest where
  name : String := ""
  description : String := ""
  tables : List Table := []
  foreignKeys : List ForeignKey := []
deriving Repr, DecidableEq

/-- `models.UpdateSchemaRequest`. -/
structure UpdateSchemaRequest where
  name : String := ""
  description : String := ""
  tables : List Table := []
  foreignKeys : List ForeignKey := []
deriving Repr, DecidableEq

/-- An observable collaborator call of the `schemaService` create/update
orchestration: repository reads and writes, a call into the validator
service, and the call into the database manager. -/
inductive SvcEvent where
  | repoGetByName (name : String)
  | repoGetByID
  | validateSchema
  | repoCreate
  | regenerateDatabase (databaseName : String)
  | repoUpdate (status : String)
deriving Repr, DecidableEq

/-- Oracle for the repository and database-manager calls the
`schemaService` makes: what each collaborator would answer. -/
structure SvcEnv where
  nameExists : Bool := false
  repoCreateErr : Option String := none
  getErr : Option String := none
  oldName : String := ""
  nameConflict : Bool := false
  repoUpdateErr : Option String := none
  regenErr : Option String := none

/-- `schemaService.CreateSchema`: duplicate-name check, metadata insert,
then `RegenerateDatabase`; on regeneration failure the status is set to
`error`, on success to `created`. The randomly generated database name is
passed in as `databaseName`. Returns the event trace and the final stored
status (or the Go error). -/
def CreateSchema (env : SvcEnv) (request : CreateSchemaRequest) (databaseName : String) :
    List SvcEvent × Except String String :=
  if env.nameExists then
    ([SvcEvent.repoGetByName request.name],
     Except.error ("schema with name " ++ sq ++ request.name ++ sq ++ " already exists"))
  else
    match env.repoCreateErr with
    | some e =>
      ([SvcEvent.repoGetByName request.name, SvcEvent.repoCreate],
       Except.error ("failed to create schema: " ++ e))
    | none =>
      match env.regenErr with
      | some e =>
        ([SvcEvent.repoGetByName request.name, SvcEvent.repoCreate,
          SvcEvent.regenerateDatabase databaseName, SvcEvent.repoUpdate "error"],
         Except.error ("failed to generate database: " ++ e))
      | none =>
        ([SvcEvent.repoGetByName request.name, SvcEvent.repoCreate,
          SvcEvent.regenerateDatabase databaseName, SvcEvent.repoUpdate "created"],
         Except.ok "created")

/-- `schemaService.UpdateSchema`: load by id, conflict check when the name
changes, save metadata with status `updating`, then `RegenerateDatabase`;
on regeneration failure the status is set to `error`, on success to
`updated`. `databaseName` is the stored schema record database name. -/
def UpdateSchema (env : SvcEnv) (request : UpdateSchemaRequest) (databaseName : String) :
    List SvcEvent × Except String String :=
  match env.getErr with
  | some e => ([SvcEvent.repoGetByID], Except.error e)
  | none =>
    let nameCheck : List SvcEvent :=
      if env.oldName ≠ request.name then [SvcEvent.repoGetByName request.name] else []
    if env.oldName ≠ request.name ∧ env.nameConflict then
      ([SvcEvent.repoGetByID] ++ nameCheck,
       Except.error ("schema with name " ++ sq ++ request.name ++ sq ++ " already exists"))
    else
      match env.repoUpdateErr with
      | some e =>
        ([SvcEvent.repoGetByID] ++ nameCheck ++ [SvcEvent.repoUpdate "updating"],
         Except.error ("failed to update schema: " ++ e))
      | none =>
        match env.regenErr with
        | some e =>
          ([SvcEvent.repoGetByID] ++ nameCheck
             ++ [SvcEvent.repoUpdate "updating", SvcEvent.regenerateDatabase databaseName,
                 SvcEvent.repoUpdate "error"],
           Except.error ("failed to regenerate database: " ++ e))
        | none =>
          ([SvcEvent.repoGetByID] ++ nameCheck
             ++ [SvcEvent.repoUpdate "updating", SvcEvent.regenerateDatabase databaseName,
                 SvcEvent.repoUpdate "updated"],
           Except.ok "updated")

/-! ### Spec-side renderings (used to compare claims against the code) -/

/-- The default clause exactly as the specification sentence describes it:
an explicitly set `defaultValue` is always rendered (strings quoted,
booleans lowercase, numbers verbatim); otherwise the implicit type default
(`CURRENT_TIMESTAMP` for TIMESTAMP, `gen_random_uuid()` for UUID), and
nothing for other types. -/
def claimDefaultClause (column : Column) : String :=
  match column.defaultValue with
  | some (.str v) => " DEFAULT " ++ sq ++ v ++ sq
  | some (.boolean b) => " DEFAULT " ++ (if b then "true" else "false")
  | some (.num rendered) => " DEFAULT " ++ rendered
  | none =>
    if column.dataType = "TIMESTAMP" then " DEFAULT CURRENT_TIMESTAMP"
    else if column.dataType = "UUID" then " DEFAULT gen_random_uuid()"
    else ""

/-- The default clause as the code actually behaves: like
`claimDefaultClause`, except that an explicitly set default that is the
EMPTY string emits no `DEFAULT` clause at all (while still suppressing the
implicit type default, because the value is set). -/
def amendedDefaultClause (column : Column) : String :=
  match column.defaultValue with
  | some (.str v) => if v = "" then "" else " DEFAULT " ++ sq ++ v ++ sq
  | some (.boolean b) => " DEFAULT " ++ (if b then "true" else "false")
  | some (.num rendered) => " DEFAULT " ++ rendered
  | none =>
    if column.dataType = "TIMESTAMP" then " DEFAULT CURRENT_TIMESTAMP"
    else if column.dataType = "UUID" then " DEFAULT gen_random_uuid()"
    else ""

/-! ### Concrete inputs used by scenario claims, witnesses and counterexamples -/

/-- The `users` table of the round-trip scenario. -/
def rtUsers : Table :=
  { id := "t1", name := "users",
    columns := [
      { id := "c1", name := "id", dataType := "INT", primaryKey := true, autoIncrement := true },
      { id := "c2", name := "email", dataType := "VARCHAR", length := some 255,
        unique := true, nullable := false }] }

/-- The `posts` table of the round-trip scenario. -/
def rtPosts : Table :=
  { id := "t2", name := "posts",
    columns := [
      { id := "c3", name := "id", dataType := "INT", primaryKey := true, autoIncrement := true },
      { id := "c4", name := "user_id", dataType := "INT", nullable := false }] }

/-- The foreign key `posts.user_id` to `users.id` of the round-trip
scenario, with `onDelete=CASCADE`, `onUpdate=RESTRICT` and no given name. -/
def rtFK : ForeignKey :=
  { id := "fk1", sourceTableId := "t2", sourceColumnId := "c4",
    targetTableId := "t1", targetColumnId := "c1",
    onDelete := "CASCADE", onUpdate := "RESTRICT" }

/-- The round-trip scenario schema: `users`, `posts`, and one foreign key
`posts.user_id` to `users.id` with `onDelete=CASCADE`, `onUpdate=RESTRICT`. -/
def rtSchema : SchemaData :=
  { tables := [rtUsers, rtPosts], foreignKeys := [rtFK] }

/-- The statements `GenerateCreateTables` computes for `rtSchema`. -/
def rtStatements : List String := rtSchema.tables.map createTableStatement

/-- The statements `GenerateCreateTables` computes for the swapped schema. -/
def rtStatementsSwapped : List String := [rtPosts, rtUsers].map createTableStatement

/-- `rtSchema` with its two tables swapped (for the ordering claim). -/
def rtSchemaSwapped : SchemaData := { rtSchema with tables := [rtPosts, rtUsers] }

/-- The index permutation swapping positions 0 and 1. -/
def swap01 : Nat → Nat := fun i => if i = 0 then 1 else if i = 1 then 0 else i

/-- Two tables that reuse the same column id `c1` for differently named
columns, plus a foreign key whose column ids resolve through the global,
unscoped column map: the source column lookup answers with the LAST table
in input order, although table `A` is the source table. -/
def dupSchema : SchemaData :=
  { tables := [
      { id := "tA", name := "A", columns := [{ id := "c1", name := "a_col", dataType := "INT" }] },
      { id := "tB", name := "B", columns := [{ id := "c1", name := "b_col", dataType := "INT" }] }],
    foreignKeys := [{ id := "f", sourceTableId := "tA", sourceColumnId := "c1",
                      targetTableId := "tB", targetColumnId := "c1" }] }

/-- `rtSchema` with one extra dangling foreign key (its target table id
matches no table) inserted after the resolvable one. -/
def danglingSchema : SchemaData :=
  { rtSchema with
    foreignKeys := rtSchema.foreignKeys ++
      [{ id := "fk2", sourceTableId := "t2", sourceColumnId := "c4",
         targetTableId := "missing", targetColumnId := "c1" }] }

/-- The dangling foreign key of `danglingSchema`. -/
def danglingFK : ForeignKey :=
  { id := "fk2", sourceTableId := "t2", sourceColumnId := "c4",
    targetTableId := "missing", targetColumnId := "c1" }

/-- A table whose single column has the unsupported data type `MONEY`. -/
def moneyTable : Table :=
  { id := "tm", name := "accounts",
    columns := [{ id := "cm", name := "balance", dataType := "MONEY", primaryKey := true }] }

/-- A create request whose schema fails validation (unsupported `MONEY`). -/
def moneyCreateRequest : CreateSchemaRequest :=
  { name := "money", tables := [moneyTable] }

/-- The validation request corresponding to `moneyCreateRequest`. -/
def moneyValidationRequest : SchemaValidationRequest :=
  { name := "money", tables := [moneyTable] }

/-- The collaborator oracle in which every repository and database call
succeeds and no duplicate name exists. -/
def happySvcEnv : SvcEnv := {}

/-- The database oracle in which dropping, creating, connecting and every
statement execution succeed. -/
def happyDBEnv : DBEnv := {}

/-- A single supported-type table named `users` with no primary-key column
(the validator warning scenario). -/
def noPkTable : Table :=
  { id := "t", name := "users", columns := [{ id := "c", name := "id", dataType := "INT" }] }

/-- The validation request of the warning scenario. -/
def noPkRequest : SchemaValidationRequest := { name := "s", tables := [noPkTable] }

/-- The result `ValidateSchema` computes for `noPkRequest`. -/
def noPkResult : ValidationResult :=
  { valid := true, errors := [], warnings := [noPrimaryKeyWarning noPkTable] }

/-- A column with an explicitly set empty-string default (the input on which
the claimed default rendering and the code disagree). -/
def emptyDefaultColumn : Column :=
  { name := "c", dataType := "TEXT", nullable := true, defaultValue := some (.str "") }

/-! ## Theorems -/

/-- C8: on the round-trip scenario schema (`users` and `posts` as described,
plus one foreign key `posts.user_id` to `users.id` with `onDelete=CASCADE`,
`onUpdate=RESTRICT`), `GenerateCreateTables` returns exactly two `CREATE
TABLE` statements, in input order, and `GenerateForeignKeys` returns exactly
one `ALTER TABLE` statement referencing `users (id)` with `ON DELETE CASCADE
ON UPDATE RESTRICT`. -/
theorem C8_round_trip_scenario :
    GenerateCreateTables rtSchema = Except.ok
      ["CREATE TABLE users (\n    id SERIAL NOT NULL,\n    email VARCHAR(255) NOT NULL,\n    PRIMARY KEY (id),\n    UNIQUE (email)\n);",
       "CREATE TABLE posts (\n    id SERIAL NOT NULL,\n    user_id INTEGER NOT NULL,\n    PRIMARY KEY (id)\n);"] ∧
    GenerateForeignKeys rtSchema = Except.ok
      ["ALTER TABLE posts ADD CONSTRAINT fk_posts_user_id FOREIGN KEY (user_id) REFERENCES users (id) ON DELETE CASCADE ON UPDATE RESTRICT;"] :=
  ⟨rfl, rfl⟩

/-- Helper: a lookup with Go map semantics succeeds exactly when some
binding in the association list has the key. -/
theorem mapLookup_isSome (m : List (String × String)) (k : String) :
    (mapLookup m k).isSome = true ↔ ∃ x ∈ m, x.1 = k := by
  unfold mapLookup
  rcases h : List.find? (fun p => p.1 == k) m.reverse with _ | x
  · rw [h]
    simp only [Option.map_none', Option.isSome_none, Bool.false_eq_true, false_iff]
    rintro ⟨x, hx, hk⟩
    have hfalse := (List.find?_eq_none.mp h) x (List.mem_reverse.mpr hx)
    simp [hk] at hfalse
  · rw [h]
    simp only [Option.map_some', Option.isSome_some, true_iff]
    have hx := List.find?_some h
    have hmem := List.mem_reverse.mp (List.mem_of_find?_eq_some h)
    exact ⟨x, hmem, beq_iff_eq.mp hx⟩

/-- C10: the column-id lookup map of `GenerateForeignKeys` ranges over the
columns of ALL tables: a column-id lookup succeeds exactly when the id
matches a column of any table of the schema (not necessarily of the source
or target table), and when several tables reuse one column id the name of
the last table in input order wins — on `dupSchema` the foreign key is
emitted (not skipped) and both column positions and the derived constraint
name use `b_col`, the name from the last table. -/
theorem C10_unscoped_column_map :
    (∀ (sd : SchemaData) (k : String),
        (mapLookup (columnMapOf sd) k).isSome = true ↔
          ∃ t ∈ sd.tables, ∃ c ∈ t.columns, c.id = k) ∧
    GenerateForeignKeys dupSchema = Except.ok
      [fkStatement "A" "fk_A_b_col" "b_col" "B" "b_col" "RESTRICT" "RESTRICT"] := by
  constructor
  · intro sd k
    rw [mapLookup_isSome]
    constructor
    · rintro ⟨⟨a, b⟩, hmem, rfl⟩
      simp [columnMapOf] at hmem
      rcases hmem with ⟨t, ht, c, hc, hid, hname⟩
      exact ⟨t, ht, c, hc, hid⟩
    · rintro ⟨t, ht, c, hc, rfl⟩
      refine ⟨(c.id, c.name), ?_, rfl⟩
      simp only [columnMapOf, List.mem_flatten, List.mem_map]
      exact ⟨t.columns.map (fun c => (c.id, c.name)), ⟨t, ht, rfl⟩,
        List.mem_map.mpr ⟨c, hc, rfl⟩⟩
  · rfl

/-- Helper: the full shape of a generated column definition — name, type,
nullability, then the default clause the code actually emits. -/
theorem generateColumnDefinition_characterization (column : Column) :
    generateColumnDefinition column
      = column.name ++ " " ++ dataTypeSQL column
        ++ (if column.nullable then "" else " NOT NULL")
        ++ amendedDefaultClause column := by
  rcases column with ⟨id, name, dataType, len, prec, sc, nullable, pk, ai, uniq, dv⟩
  unfold generateColumnDefinition amendedDefaultClause
  dsimp only
  rcases dv with _ | (v | b | rendered)
  · by_cases h1 : dataType = "UUID" <;> by_cases h2 : dataType = "TIMESTAMP" <;>
      cases nullable <;>
      simp_all [String.append_assoc, String.append_empty] <;> rfl
  · by_cases hv : v = "" <;> cases nullable <;>
      simp_all [String.append_assoc, String.append_empty] <;> rfl
  · cases nullable <;> simp_all [String.append_assoc, String.append_empty] <;> rfl
  · cases nullable <;> simp_all [String.append_assoc, String.append_empty] <;> rfl

/-- C2: `generateColumnDefinition` emits the column name, a space, then the
SQL type expression given by the fixed mapping table — INTEGER/SERIAL,
BIGINT/BIGSERIAL, VARCHAR(n) with n the given positive length and 255
otherwise, TEXT, BOOLEAN, TIMESTAMP WITH TIME ZONE, DATE, TIME,
DECIMAL(p,s) with p defaulting to 10 and s to 2 when unset, REAL,
DOUBLE PRECISION, JSONB, UUID — and any other data type falls back to
unbounded TEXT. -/
theorem C2_data_type_mapping (column : Column) :
    (∃ rest, generateColumnDefinition column
        = column.name ++ " " ++ dataTypeSQL column ++ rest) ∧
    (column.dataType = "INT" →
        dataTypeSQL column = if column.autoIncrement then "SERIAL" else "INTEGER") ∧
    (column.dataType = "BIGINT" →
        dataTypeSQL column = if column.autoIncrement then "BIGSERIAL" else "BIGINT") ∧
    (column.dataType = "VARCHAR" →
        dataTypeSQL column = "VARCHAR(" ++
          toString (match column.length with
            | some l => if l > 0 then l else (255 : Int)
            | none => (255 : Int)) ++ ")") ∧
    (column.dataType = "TEXT" → dataTypeSQL column = "TEXT") ∧
    (column.dataType = "BOOLEAN" → dataTypeSQL column = "BOOLEAN") ∧
    (column.dataType = "TIMESTAMP" → dataTypeSQL column = "TIMESTAMP WITH TIME ZONE") ∧
    (column.dataType = "DATE" → dataTypeSQL column = "DATE") ∧
    (column.dataType = "TIME" → dataTypeSQL column = "TIME") ∧
    (column.dataType = "DECIMAL" →
        dataTypeSQL column = "DECIMAL(" ++ toString (column.precision.getD 10) ++ ","
          ++ toString (column.scale.getD 2) ++ ")") ∧
    (column.dataType = "FLOAT" → dataTypeSQL column = "REAL") ∧
    (column.dataType = "DOUBLE" → dataTypeSQL column = "DOUBLE PRECISION") ∧
    (column.dataType = "JSON" → dataTypeSQL column = "JSONB") ∧
    (column.dataType = "UUID" → dataTypeSQL column = "UUID") ∧
    (SupportedDataTypes column.dataType = false → dataTypeSQL column = "TEXT") := by
  refine ⟨?_, ?_, ?_, ?_, ?_, ?_, ?_, ?_, ?_, ?_, ?_, ?_, ?_, ?_, ?_⟩
  · rw [generateColumnDefinition_characterization]
    exact ⟨_, String.append_assoc _ _ _⟩
  all_goals intro h
  · simp [dataTypeSQL, h]
  · simp [dataTypeSQL, h]
  · simp [dataTypeSQL, h]
  · simp [dataTypeSQL, h]
  · simp [dataTypeSQL, h]
  · simp [dataTypeSQL, h]
  · simp [dataTypeSQL, h]
  · simp [dataTypeSQL, h]
  · simp [dataTypeSQL, h]
  · simp [dataTypeSQL, h]
  · simp [dataTypeSQL, h]
  · simp [dataTypeSQL, h]
  · simp [dataTypeSQL, h]
  · simp only [SupportedDataTypes, Bool.or_eq_false_iff, beq_eq_false_iff_ne] at h
    obtain ⟨⟨⟨⟨⟨⟨⟨⟨⟨⟨⟨⟨h1, h2⟩, h3⟩, h4⟩, h5⟩, h6⟩, h7⟩, h8⟩, h9⟩, h10⟩, h11⟩, h12⟩, h13⟩ := h
    simp [dataTypeSQL, h1, h2, h3, h4, h5, h6, h7, h8, h9, h10, h11, h12, h13]

/-- Helper: the primary-key warning pass distributes over list append. -/
theorem primaryKeyWarnings_append (l1 l2 : List Table) :
    primaryKeyWarnings (l1 ++ l2) = primaryKeyWarnings l1 ++ primaryKeyWarnings l2 := by
  induction l1 with
  | nil => rfl
  | cons t rest ih => simp [primaryKeyWarnings, ih]

/-- Helper: tables that all have a primary-key column produce no warning. -/
theorem primaryKeyWarnings_nil (l : List Table)
    (h : ∀ t ∈ l, t.columns.any (fun c => c.primaryKey) = true) :
    primaryKeyWarnings l = [] := by
  induction l with
  | nil => rfl
  | cons t rest ih =>
    have ht := h t (by simp)
    simp only [primaryKeyWarnings, ht, if_pos]
    exact ih (fun u hu => h u (by simp [hu]))

/-- Helper: columns that are all of supported types produce no error. -/
theorem columnTypeErrors_nil (cols : List Column)
    (h : ∀ c ∈ cols, SupportedDataTypes c.dataType = true) :
    ∀ i j, columnTypeErrors i j cols = [] := by
  induction cols with
  | nil => intro i j; rfl
  | cons c rest ih =>
    intro i j
    have hc := h c (by simp)
    simp only [columnTypeErrors, hc, if_pos]
    exact ih (fun x hx => h x (by simp [hx])) i (j + 1)

/-- Helper: schemas whose columns are all of supported types produce no
data-type error. -/
theorem dataTypeErrors_nil (l : List Table)
    (h : ∀ t ∈ l, ∀ c ∈ t.columns, SupportedDataTypes c.dataType = true) :
    ∀ i, dataTypeErrors i l = [] := by
  induction l with
  | nil => intro i; rfl
  | cons t rest ih =>
    intro i
    simp only [dataTypeErrors]
    rw [columnTypeErrors_nil t.columns (h t (by simp)) i 0,
      ih (fun u hu => h u (by simp [hu])) (i + 1)]
    rfl

/-- Helper: an unsupported column at position `j` of the column list yields
its error, with the column index offset by the starting index. -/
theorem columnTypeErrors_mem (cols : List Column) (j : Nat) (c : Column)
    (hg : cols.get? j = some c) (hc : SupportedDataTypes c.dataType = false) :
    ∀ i j0, unsupportedTypeError i (j0 + j) c ∈ columnTypeErrors i j0 cols := by
  induction cols generalizing j with
  | nil => intro i j0; cases hg
  | cons x rest ih =>
    intro i j0
    cases j with
    | zero =>
      rw [List.get?_cons_zero, Option.some.injEq] at hg
      subst hg
      simp [columnTypeErrors, hc]
    | succ m =>
      rw [List.get?_cons_succ] at hg
      have := ih m hg i (j0 + 1)
      simp only [columnTypeErrors, List.mem_append]
      right
      simpa [Nat.add_assoc, Nat.add_comm 1 m] using this

/-- Helper: an unsupported column of the table at position `i` yields its
error, with the table index offset by the starting index. -/
theorem dataTypeErrors_mem (l : List Table) (i j : Nat) (t : Table) (c : Column)
    (hg : l.get? i = some t) (hcol : t.columns.get? j = some c)
    (hc : SupportedDataTypes c.dataType = false) :
    ∀ i0, unsupportedTypeError (i0 + i) j c ∈ dataTypeErrors i0 l := by
  induction l generalizing i with
  | nil => intro i0; cases hg
  | cons x rest ih =>
    intro i0
    cases i with
    | zero =>
      rw [List.get?_cons_zero, Option.some.injEq] at hg
      subst hg
      simp only [dataTypeErrors, List.mem_append]
      left
      simpa using columnTypeErrors_mem _ j c hcol hc i0 0
    | succ m =>
      rw [List.get?_cons_succ] at hg
      have := ih m hg (i0 + 1)
      simp only [dataTypeErrors, List.mem_append]
      right
      simpa [Nat.add_assoc, Nat.add_comm 1 m] using this

/-- C3: `ValidateSchema` reports `valid = true` exactly when the collected
error list is empty and warnings never affect validity: a nonempty schema
whose only primary-key-less table is `t` and whose data types are all
supported is valid with exactly the one warning naming `t`; an unsupported
data type at table `i`, column `j` makes the schema invalid with an
`UNSUPPORTED_DATA_TYPE` error naming both indices; an empty table list
yields exactly the `MISSING_TABLES` error. -/
theorem C3_validator_valid_iff (request : SchemaValidationRequest) (r : ValidationResult)
    (h : ValidateSchema request = Except.ok r) :
    (r.valid = true ↔ r.errors = []) ∧
    (∀ pre t post, request.tables = pre ++ t :: post →
      (∀ u ∈ pre, u.columns.any (fun c => c.primaryKey) = true) →
      (∀ u ∈ post, u.columns.any (fun c => c.primaryKey) = true) →
      t.columns.any (fun c => c.primaryKey) = false →
      (∀ u ∈ request.tables, ∀ c ∈ u.columns, SupportedDataTypes c.dataType = true) →
      r.valid = true ∧ r.warnings = [noPrimaryKeyWarning t]) ∧
    (∀ i j t c, request.tables.get? i = some t → t.columns.get? j = some c →
      SupportedDataTypes c.dataType = false →
      r.valid = false ∧ unsupportedTypeError i j c ∈ r.errors) ∧
    (request.tables = [] →
      r.errors = [{ field := "tables", message := "At least one table is required",
                    code := "MISSING_TABLES" }]) := by
  rw [ValidateSchema, Except.ok.injEq] at h
  subst h
  refine ⟨List.isEmpty_iff, ?_, ?_, ?_⟩
  · intro pre t post htab hpre hpost ht hsupp
    constructor
    · have hmt : request.tables.isEmpty = false := by
        rw [htab]; simp
      have hdt : dataTypeErrors 0 request.tables = [] := dataTypeErrors_nil _ hsupp 0
      simp [hmt, hdt]
    · show primaryKeyWarnings request.tables = _
      rw [htab, primaryKeyWarnings_append]
      rw [primaryKeyWarnings_nil pre hpre]
      show [] ++ ((if _ then _ else _) ++ _) = _
      rw [primaryKeyWarnings_nil post hpost, ht]
      simp
  · intro i j t c hg hcol hc
    have hmem : unsupportedTypeError i j c ∈ dataTypeErrors 0 request.tables := by
      simpa using dataTypeErrors_mem request.tables i j t c hg hcol hc 0
    constructor
    · show (_ ++ dataTypeErrors 0 request.tables).isEmpty = false
      rw [List.isEmpty_eq_false]
      intro hnil
      rw [List.append_eq_nil] at hnil
      rw [hnil.2] at hmem
      cases hmem
    · show unsupportedTypeError i j c ∈ _ ++ dataTypeErrors 0 request.tables
      exact List.mem_append_right _ hmem
  · intro htab
    show (if request.tables.isEmpty then _ else []) ++ dataTypeErrors 0 request.tables = _
    rw [htab]
    rfl

/-- C3 witness: the warning scenario instantiated on a concrete one-table
schema with no primary key and supported types. -/
theorem C3_validator_valid_iff_witness :
    noPkResult.valid = true ∧ noPkResult.warnings = [noPrimaryKeyWarning noPkTable] :=
  (C3_validator_valid_iff noPkRequest noPkResult rfl).2.1 [] noPkTable [] rfl
    (fun u hu => absurd hu (List.not_mem_nil u))
    (fun u hu => absurd hu (List.not_mem_nil u))
    (by decide) (by decide)

/-- C7 counterexample: for the column with an explicitly set empty-string
default, the code emits NO `DEFAULT` clause, while the claimed rendering
(defaultValue set, hence rendered as the quoted given string) appends
`DEFAULT` with two quotes; the claim as stated is false on this input. -/
theorem C7_counterexample :
    generateColumnDefinition emptyDefaultColumn ≠
      emptyDefaultColumn.name ++ " " ++ dataTypeSQL emptyDefaultColumn
        ++ claimDefaultClause emptyDefaultColumn := by
  decide

/-- C7 amended: the default clause follows the claimed precedence — an
explicitly set `defaultValue` is rendered (strings quoted, booleans
lowercase, numbers verbatim), otherwise the implicit type default
(`CURRENT_TIMESTAMP` for TIMESTAMP, `gen_random_uuid()` for UUID) and no
clause for other types — EXCEPT that an explicitly set empty-string default
emits no `DEFAULT` clause at all while still suppressing the implicit type
default. -/
theorem C7_default_clause_amended (column : Column) :
    generateColumnDefinition column
      = column.name ++ " " ++ dataTypeSQL column
        ++ (if column.nullable then "" else " NOT NULL")
        ++ amendedDefaultClause column :=
  generateColumnDefinition_characterization column

/-- Helper: the empty string is not a valid referential action. -/
theorem validForeignKeyActions_empty : ValidForeignKeyActions "" = false := rfl

/-- Helper: a foreign key with a failed lookup resolves to no statement. -/
theorem resolveFK_none_of_fail (tableMap columnMap : List (String × String))
    (fk : ForeignKey)
    (hfail : mapLookup tableMap fk.sourceTableId = none ∨
      mapLookup tableMap fk.targetTableId = none ∨
      mapLookup columnMap fk.sourceColumnId = none ∨
      mapLookup columnMap fk.targetColumnId = none) :
    resolveFK tableMap columnMap fk = none := by
  cases h1 : mapLookup tableMap fk.sourceTableId <;>
    cases h2 : mapLookup tableMap fk.targetTableId <;>
    cases h3 : mapLookup columnMap fk.sourceColumnId <;>
    cases h4 : mapLookup columnMap fk.targetColumnId <;>
    simp_all [resolveFK]

/-- C5: a foreign key any of whose four id lookups fails contributes no
`ALTER TABLE` statement — removing it from the input changes nothing — and
`GenerateForeignKeys` still succeeds, emitting all other resolvable foreign
keys. -/
theorem C5_unresolvable_fk_skipped (sd : SchemaData) (pre post : List ForeignKey)
    (fk : ForeignKey)
    (h : sd.foreignKeys = pre ++ fk :: post)
    (hfail : mapLookup (tableMapOf sd) fk.sourceTableId = none ∨
      mapLookup (tableMapOf sd) fk.targetTableId = none ∨
      mapLookup (columnMapOf sd) fk.sourceColumnId = none ∨
      mapLookup (columnMapOf sd) fk.targetColumnId = none) :
    GenerateForeignKeys sd = GenerateForeignKeys { sd with foreignKeys := pre ++ post } ∧
    ∃ out, GenerateForeignKeys sd = Except.ok out := by
  have hnone := resolveFK_none_of_fail (tableMapOf sd) (columnMapOf sd) fk hfail
  constructor
  · show Except.ok (sd.foreignKeys.filterMap (resolveFK (tableMapOf sd) (columnMapOf sd)))
      = Except.ok ((pre ++ post).filterMap (resolveFK (tableMapOf sd) (columnMapOf sd)))
    rw [Except.ok.injEq, h]
    simp [List.filterMap_append, List.filterMap_cons, hnone]
  · exact ⟨_, rfl⟩

/-- C5 witness: the dangling foreign key of `danglingSchema` is skipped and
generation still succeeds. -/
theorem C5_unresolvable_fk_skipped_witness :
    GenerateForeignKeys danglingSchema
      = GenerateForeignKeys { danglingSchema with foreignKeys := rtSchema.foreignKeys ++ [] } ∧
    ∃ out, GenerateForeignKeys danglingSchema = Except.ok out :=
  C5_unresolvable_fk_skipped danglingSchema rtSchema.foreignKeys [] danglingFK rfl
    (Or.inr (Or.inl rfl))

/-- C6: every resolvable foreign key is emitted with the given constraint
name when non-empty (else `fk_<sourceTable>_<sourceColumn>`), and with the
given `onDelete`/`onUpdate` when they are valid referential actions (else
`RESTRICT`, including when absent). -/
theorem C6_constraint_name_and_actions (sd : SchemaData) (fk : ForeignKey)
    (st tt sc tc : String)
    (hmem : fk ∈ sd.foreignKeys)
    (h1 : mapLookup (tableMapOf sd) fk.sourceTableId = some st)
    (h2 : mapLookup (tableMapOf sd) fk.targetTableId = some tt)
    (h3 : mapLookup (columnMapOf sd) fk.sourceColumnId = some sc)
    (h4 : mapLookup (columnMapOf sd) fk.targetColumnId = some tc) :
    ∃ out, GenerateForeignKeys sd = Except.ok out ∧
      fkStatement st (if fk.name = "" then "fk_" ++ st ++ "_" ++ sc else fk.name) sc tt tc
        (if ValidForeignKeyActions fk.onDelete then fk.onDelete else "RESTRICT")
        (if ValidForeignKeyActions fk.onUpdate then fk.onUpdate else "RESTRICT") ∈ out := by
  have hd : (if fk.onDelete ≠ "" ∧ ValidForeignKeyActions fk.onDelete
        then fk.onDelete else "RESTRICT")
      = (if ValidForeignKeyActions fk.onDelete then fk.onDelete else "RESTRICT") := by
    by_cases he : fk.onDelete = ""
    · simp [he, validForeignKeyActions_empty]
    · simp [he]
  have hu : (if fk.onUpdate ≠ "" ∧ ValidForeignKeyActions fk.onUpdate
        then fk.onUpdate else "RESTRICT")
      = (if ValidForeignKeyActions fk.onUpdate then fk.onUpdate else "RESTRICT") := by
    by_cases he : fk.onUpdate = ""
    · simp [he, validForeignKeyActions_empty]
    · simp [he]
  refine ⟨_, rfl, ?_⟩
  rw [List.mem_filterMap]
  refine ⟨fk, hmem, ?_⟩
  unfold resolveFK
  rw [h1, h2, h3, h4]
  simp only [hd, hu]

/-- C6 witness: the round-trip foreign key resolves and its statement uses
the derived constraint name and the given CASCADE/RESTRICT actions. -/
theorem C6_constraint_name_and_actions_witness :
    ∃ out, GenerateForeignKeys rtSchema = Except.ok out ∧
      fkStatement "posts" (if rtFK.name = "" then "fk_" ++ "posts" ++ "_" ++ "user_id" else rtFK.name)
        "user_id" "users" "id"
        (if ValidForeignKeyActions rtFK.onDelete then rtFK.onDelete else "RESTRICT")
        (if ValidForeignKeyActions rtFK.onUpdate then rtFK.onUpdate else "RESTRICT") ∈ out :=
  C6_constraint_name_and_actions rtSchema rtFK "posts" "users" "user_id" "id"
    (List.mem_singleton.mpr rfl) rfl rfl rfl rfl

/-- C9: `GenerateCreateTables` emits statements in table input order — the
i-th output statement is determined by the i-th input table — so permuting
the input tables permutes the output statements identically. -/
theorem C9_statement_order_follows_table_order (sd1 sd2 : SchemaData)
    (out1 out2 : List String) (σ : Nat → Nat)
    (h1 : GenerateCreateTables sd1 = Except.ok out1)
    (h2 : GenerateCreateTables sd2 = Except.ok out2)
    (hperm : ∀ i, sd2.tables.get? i = sd1.tables.get? (σ i)) :
    out2.length = sd2.tables.length ∧ out1.length = sd1.tables.length ∧
    ∀ i, out2.get? i = out1.get? (σ i) := by
  rw [GenerateCreateTables, Except.ok.injEq] at h1 h2
  subst h1
  subst h2
  refine ⟨List.length_map _ _, List.length_map _ _, ?_⟩
  intro i
  rw [List.get?_map, List.get?_map, hperm i]

/-- C9 witness: swapping the two tables of the round-trip schema swaps the
two generated statements. -/
theorem C9_statement_order_follows_table_order_witness :
    rtStatementsSwapped.length = rtSchemaSwapped.tables.length ∧
    rtStatements.length = rtSchema.tables.length ∧
    ∀ i, rtStatementsSwapped.get? i = rtStatements.get? (swap01 i) :=
  C9_statement_order_follows_table_order rtSchema rtSchemaSwapped
    rtStatements rtStatementsSwapped swap01 rfl rfl
    (by intro i; rcases i with _ | (_ | n) <;> rfl)

/-- Helper: executing statements that all succeed executes every one in
order and reports no error. -/
theorem execStatements_all_ok (f : String → Option String) (tag : String) (l : List String)
    (h : ∀ s ∈ l, f s = none) :
    execStatements f tag l = (l.map DBEvent.exec, none) := by
  induction l with
  | nil => rfl
  | cons s rest ih =>
    have hs := h s (by simp)
    simp only [execStatements, hs]
    rw [ih (fun x hx => h x (by simp [hx]))]
    rfl

/-- Helper: the one-step unfolding of `execStatements` on a nonempty list. -/
theorem execStatements_cons (f : String → Option String) (tag x : String)
    (l : List String) :
    execStatements f tag (x :: l) = match f x with
      | some e => ([DBEvent.exec x], some (tag ++ ": " ++ e ++ "\nStatement: " ++ x))
      | none => (DBEvent.exec x :: (execStatements f tag l).1, (execStatements f tag l).2) :=
  rfl

/-- Helper: execution aborts at the first failing statement, executing
exactly the successful ones before it plus the failing one, and the error
text names that exact statement. -/
theorem execStatements_mid_fail (f : String → Option String) (tag : String)
    (d : List String) (s : String) (r : List String) (e : String)
    (hd : ∀ x ∈ d, f x = none) (hs : f s = some e) :
    execStatements f tag (d ++ s :: r)
      = ((d ++ [s]).map DBEvent.exec, some (tag ++ ": " ++ e ++ "\nStatement: " ++ s)) := by
  induction d with
  | nil => simp [execStatements, hs]
  | cons x xs ih =>
    have hx := hd x (by simp)
    rw [List.cons_append, execStatements_cons, hx]
    show (DBEvent.exec x :: (execStatements f tag (xs ++ s :: r)).1,
        (execStatements f tag (xs ++ s :: r)).2) = _
    rw [ih (fun y hy => hd y (by simp [hy]))]
    rfl

/-- Helper: execution reports no error exactly when every statement
succeeds. -/
theorem execStatements_snd_none_iff (f : String → Option String) (tag : String)
    (l : List String) :
    (execStatements f tag l).2 = none ↔ ∀ s ∈ l, f s = none := by
  induction l with
  | nil => simp [execStatements]
  | cons s rest ih =>
    cases hs : f s with
    | some e => simp [execStatements, hs]
    | none => simp [execStatements, hs, ih]

/-- Helper: only statements of the input list are ever executed. -/
theorem exec_mem_execStatements (f : String → Option String) (tag : String)
    (l : List String) (s : String) :
    DBEvent.exec s ∈ (execStatements f tag l).1 → s ∈ l := by
  induction l with
  | nil => intro h; cases h
  | cons x rest ih =>
    cases hx : f x with
    | some e =>
      intro h
      simp only [execStatements, hx, List.mem_singleton] at h
      rcases h with h
      simp only [DBEvent.exec.injEq] at h
      simp [h]
    | none =>
      intro h
      simp only [execStatements, hx] at h
      rcases List.mem_cons.mp h with h | h
      · simp only [DBEvent.exec.injEq] at h
        simp [h]
      · exact List.mem_cons_of_mem x (ih h)

/-- Helper: `RegenerateDatabase` when `CREATE DATABASE` fails. -/
theorem regenerate_create_fail (env : DBEnv) (sd : SchemaData) (n e : String)
    (hc : env.createErr = some e) :
    RegenerateDatabase env sd n
      = (dropEvents env n ++ [DBEvent.createDatabase n],
         Except.error ("failed to create database: " ++ e)) := by
  simp [RegenerateDatabase, hc]

/-- Helper: `RegenerateDatabase` when the connection to the new database
fails. -/
theorem regenerate_connect_fail (env : DBEnv) (sd : SchemaData) (n e : String)
    (hc : env.createErr = none) (hcn : env.connectErr = some e) :
    RegenerateDatabase env sd n
      = (dropEvents env n ++ [DBEvent.createDatabase n, DBEvent.connect n],
         Except.error ("failed to connect to new database: " ++ e)) := by
  simp [RegenerateDatabase, hc, hcn]

/-- Helper: `RegenerateDatabase` when some `CREATE TABLE` statement fails:
the trace ends with the executed table statements and no foreign-key
statement is ever executed. -/
theorem regenerate_table_fail (env : DBEnv) (sd : SchemaData) (n : String)
    (ts fs : List String)
    (hts : GenerateCreateTables sd = Except.ok ts)
    (hfs : GenerateForeignKeys sd = Except.ok fs)
    (hc : env.createErr = none) (hcn : env.connectErr = none) (e : String)
    (h1 : (execStatements env.execErr "failed to execute table statement" ts).2 = some e) :
    RegenerateDatabase env sd n
      = (dropEvents env n ++ [DBEvent.createDatabase n, DBEvent.connect n]
          ++ (execStatements env.execErr "failed to execute table statement" ts).1,
         Except.error e) := by
  simp [RegenerateDatabase, hc, hcn, hts, hfs, h1]

/-- Helper: `RegenerateDatabase` when all table statements succeed and some
foreign-key statement fails. -/
theorem regenerate_fk_fail (env : DBEnv) (sd : SchemaData) (n : String)
    (ts fs : List String)
    (hts : GenerateCreateTables sd = Except.ok ts)
    (hfs : GenerateForeignKeys sd = Except.ok fs)
    (hc : env.createErr = none) (hcn : env.connectErr = none) (e : String)
    (h1 : (execStatements env.execErr "failed to execute table statement" ts).2 = none)
    (h2 : (execStatements env.execErr "failed to execute foreign key statement" fs).2 = some e) :
    RegenerateDatabase env sd n
      = (dropEvents env n ++ [DBEvent.createDatabase n, DBEvent.connect n]
          ++ (execStatements env.execErr "failed to execute table statement" ts).1
          ++ (execStatements env.execErr "failed to execute foreign key statement" fs).1,
         Except.error e) := by
  simp [RegenerateDatabase, hc, hcn, hts, hfs, h1, h2, List.append_assoc]

/-- Helper: `RegenerateDatabase` when everything succeeds. -/
theorem regenerate_all_ok (env : DBEnv) (sd : SchemaData) (n : String)
    (ts fs : List String)
    (hts : GenerateCreateTables sd = Except.ok ts)
    (hfs : GenerateForeignKeys sd = Except.ok fs)
    (hc : env.createErr = none) (hcn : env.connectErr = none)
    (h1 : (execStatements env.execErr "failed to execute table statement" ts).2 = none)
    (h2 : (execStatements env.execErr "failed to execute foreign key statement" fs).2 = none) :
    RegenerateDatabase env sd n
      = (dropEvents env n ++ [DBEvent.createDatabase n, DBEvent.connect n]
          ++ (execStatements env.execErr "failed to execute table statement" ts).1
          ++ (execStatements env.execErr "failed to execute foreign key statement" fs).1,
         Except.ok ()) := by
  simp [RegenerateDatabase, hc, hcn, hts, hfs, h1, h2, List.append_assoc]

/-- Helper: the result of `RegenerateDatabase` is success exactly when
create, connect, and both execution phases succeed. -/
theorem regenerate_result_ok_iff (env : DBEnv) (sd : SchemaData) (n : String)
    (ts fs : List String)
    (hts : GenerateCreateTables sd = Except.ok ts)
    (hfs : GenerateForeignKeys sd = Except.ok fs) :
    (RegenerateDatabase env sd n).2 = Except.ok () ↔
      env.createErr = none ∧ env.connectErr = none ∧
      (execStatements env.execErr "failed to execute table statement" ts).2 = none ∧
      (execStatements env.execErr "failed to execute foreign key statement" fs).2 = none := by
  rcases env with ⟨de, ce, cne, ex⟩
  cases ce with
  | some e => simp [RegenerateDatabase]
  | none =>
    cases cne with
    | some e => simp [RegenerateDatabase]
    | none =>
      cases h1 : (execStatements ex "failed to execute table statement" ts).2 with
      | some e => simp [RegenerateDatabase, hts, hfs, h1]
      | none =>
        cases h2 : (execStatements ex "failed to execute foreign key statement" fs).2 with
        | some e => simp [RegenerateDatabase, hts, hfs, h1, h2]
        | none => simp [RegenerateDatabase, hts, hfs, h1, h2]

/-- C1: `RegenerateDatabase` performs drop, create, connect, all `CREATE
TABLE` statements, then all `ALTER TABLE` statements, in that order: the
drop failure is non-fatal (its error never changes the result), a create or
connect failure aborts before any statement executes, a foreign-key
statement executes only after every table statement succeeded, execution
aborts on the first failing statement with the error naming that exact
statement, and the call succeeds exactly when create, connect and every
statement succeeded. -/
theorem C1_regenerate_lifecycle (env : DBEnv) (sd : SchemaData) (databaseName : String)
    (ts fs : List String)
    (hts : GenerateCreateTables sd = Except.ok ts)
    (hfs : GenerateForeignKeys sd = Except.ok fs) :
    (∀ e, (RegenerateDatabase { env with dropErr := e } sd databaseName).2
        = (RegenerateDatabase env sd databaseName).2) ∧
    (∀ e, env.createErr = some e →
      RegenerateDatabase env sd databaseName
        = (dropEvents env databaseName ++ [DBEvent.createDatabase databaseName],
           Except.error ("failed to create database: " ++ e))) ∧
    (∀ e, env.createErr = none → env.connectErr = some e →
      RegenerateDatabase env sd databaseName
        = (dropEvents env databaseName
            ++ [DBEvent.createDatabase databaseName, DBEvent.connect databaseName],
           Except.error ("failed to connect to new database: " ++ e))) ∧
    (env.createErr = none → env.connectErr = none →
      ((∀ s ∈ ts ++ fs, env.execErr s = none) →
        RegenerateDatabase env sd databaseName
          = (dropEvents env databaseName
              ++ [DBEvent.createDatabase databaseName, DBEvent.connect databaseName]
              ++ (ts ++ fs).map DBEvent.exec,
             Except.ok ())) ∧
      (∀ d s r e, ts = d ++ s :: r → (∀ x ∈ d, env.execErr x = none) →
          env.execErr s = some e →
        RegenerateDatabase env sd databaseName
          = (dropEvents env databaseName
              ++ [DBEvent.createDatabase databaseName, DBEvent.connect databaseName]
              ++ (d ++ [s]).map DBEvent.exec,
             Except.error
               ("failed to execute table statement: " ++ e ++ "\nStatement: " ++ s))) ∧
      (∀ d s r e, (∀ x ∈ ts, env.execErr x = none) → fs = d ++ s :: r →
          (∀ x ∈ d, env.execErr x = none) → env.execErr s = some e →
        RegenerateDatabase env sd databaseName
          = (dropEvents env databaseName
              ++ [DBEvent.createDatabase databaseName, DBEvent.connect databaseName]
              ++ ts.map DBEvent.exec ++ (d ++ [s]).map DBEvent.exec,
             Except.error
               ("failed to execute foreign key statement: " ++ e ++ "\nStatement: " ++ s)))) ∧
    (∀ s, s ∈ fs → s ∉ ts →
      DBEvent.exec s ∈ (RegenerateDatabase env sd databaseName).1 →
      ∀ x ∈ ts, env.execErr x = none) ∧
    ((RegenerateDatabase env sd databaseName).2 = Except.ok () ↔
      env.createErr = none ∧ env.connectErr = none ∧
      ∀ s ∈ ts ++ fs, env.execErr s = none) := by
  refine ⟨?_, ?_, ?_, ?_, ?_, ?_⟩
  · intro e
    rcases env with ⟨de, ce, cne, ex⟩
    cases ce with
    | some x => simp [RegenerateDatabase]
    | none =>
      cases cne with
      | some x => simp [RegenerateDatabase]
      | none =>
        cases h1 : (execStatements ex "failed to execute table statement" ts).2 with
        | some x => simp [RegenerateDatabase, hts, hfs, h1]
        | none =>
          cases h2 : (execStatements ex "failed to execute foreign key statement" fs).2 with
          | some x => simp [RegenerateDatabase, hts, hfs, h1, h2]
          | none => simp [RegenerateDatabase, hts, hfs, h1, h2]
  · intro e hc
    exact regenerate_create_fail env sd databaseName e hc
  · intro e hc hcn
    exact regenerate_connect_fail env sd databaseName e hc hcn
  · intro hc hcn
    refine ⟨?_, ?_, ?_⟩
    · intro hall
      rw [List.forall_mem_append] at hall
      have e1 := execStatements_all_ok env.execErr "failed to execute table statement" ts hall.1
      have e2 := execStatements_all_ok env.execErr "failed to execute foreign key statement" fs hall.2
      rw [regenerate_all_ok env sd databaseName ts fs hts hfs hc hcn
        (by rw [e1]) (by rw [e2]), e1, e2]
      simp [List.append_assoc]
    · intro d s r e hsplit hd hs
      have e1 := execStatements_mid_fail env.execErr "failed to execute table statement"
        d s r e hd hs
      rw [← hsplit] at e1
      rw [regenerate_table_fail env sd databaseName ts fs hts hfs hc hcn _ (by rw [e1]), e1]
      rfl
    · intro d s r e hts_ok hsplit hd hs
      have e1 := execStatements_all_ok env.execErr "failed to execute table statement" ts hts_ok
      have e2 := execStatements_mid_fail env.execErr "failed to execute foreign key statement"
        d s r e hd hs
      rw [← hsplit] at e2
      rw [regenerate_fk_fail env sd databaseName ts fs hts hfs hc hcn _
        (by rw [e1]) (by rw [e2]), e1, e2]
      rfl
  · intro s hsf hst hmem
    rcases env with ⟨de, ce, cne, ex⟩
    cases ce with
    | some x =>
      exfalso
      rw [regenerate_create_fail _ sd databaseName x rfl] at hmem
      cases de <;> simp [dropEvents] at hmem
    | none =>
      cases cne with
      | some x =>
        exfalso
        rw [regenerate_connect_fail _ sd databaseName x rfl rfl] at hmem
        cases de <;> simp [dropEvents] at hmem
      | none =>
        cases h1 : (execStatements ex "failed to execute table statement" ts).2 with
        | none =>
          exact (execStatements_snd_none_iff ex "failed to execute table statement" ts).mp h1
        | some e =>
          exfalso
          rw [regenerate_table_fail _ sd databaseName ts fs hts hfs rfl rfl e h1] at hmem
          simp only [List.append_assoc, List.mem_append] at hmem
          rcases hmem with hmem | hmem
          · cases de <;> simp [dropEvents] at hmem
          · rcases hmem with hmem | hmem
            · simp at hmem
            · exact hst (exec_mem_execStatements ex _ ts s hmem)
  · rw [regenerate_result_ok_iff env sd databaseName ts fs hts hfs,
      execStatements_snd_none_iff, execStatements_snd_none_iff, List.forall_mem_append]

/-- C1 witness: with an all-success oracle, regenerating the round-trip
schema succeeds. -/
theorem C1_regenerate_lifecycle_witness :
    (RegenerateDatabase happyDBEnv rtSchema "db1").2 = Except.ok () :=
  (C1_regenerate_lifecycle happyDBEnv rtSchema "db1" rtStatements
      ["ALTER TABLE posts ADD CONSTRAINT fk_posts_user_id FOREIGN KEY (user_id) REFERENCES users (id) ON DELETE CASCADE ON UPDATE RESTRICT;"]
      rfl rfl).2.2.2.2.2.mpr
    ⟨rfl, rfl, fun s hs => rfl⟩

/-- C4 counterexample: the create path never consults the Validator and
materializes even an invalid description — for the `MONEY` schema, which
the Validator rejects, `CreateSchema` performs no `validateSchema` call and
does call `RegenerateDatabase`. -/
theorem C4_counterexample :
    (ValidateSchema moneyValidationRequest).toOption.map ValidationResult.valid = some false ∧
    SvcEvent.validateSchema ∉ (CreateSchema happySvcEnv moneyCreateRequest "db_money").1 ∧
    SvcEvent.regenerateDatabase "db_money" ∈
      (CreateSchema happySvcEnv moneyCreateRequest "db_money").1 := by
  refine ⟨rfl, ?_, ?_⟩ <;> decide

/-- C4 amended: neither `CreateSchema` nor `UpdateSchema` ever invokes the
Validator; they call `RegenerateDatabase` whenever the preceding repository
steps succeed, regardless of whether the description is valid, so an
invalid description IS executed against a database. Validation is only
reachable through the separate validation endpoint. -/
theorem C4_create_update_never_validate :
    ∀ (env : SvcEnv) (creq : CreateSchemaRequest) (ureq : UpdateSchemaRequest)
      (databaseName : String),
      SvcEvent.validateSchema ∉ (CreateSchema env creq databaseName).1 ∧
      SvcEvent.validateSchema ∉ (UpdateSchema env ureq databaseName).1 ∧
      (env.nameExists = false → env.repoCreateErr = none →
        SvcEvent.regenerateDatabase databaseName ∈ (CreateSchema env creq databaseName).1) ∧
      (env.getErr = none → env.nameConflict = false → env.repoUpdateErr = none →
        SvcEvent.regenerateDatabase databaseName ∈ (UpdateSchema env ureq databaseName).1) := by
  intro env creq ureq databaseName
  rcases env with ⟨ne, rce, ge, onm, nc, rue, re⟩
  refine ⟨?_, ?_, ?_, ?_⟩
  · cases ne <;> cases rce <;> cases re <;> simp [CreateSchema]
  · cases ge <;> cases nc <;> cases rue <;> cases re <;>
      by_cases honm : onm = ureq.name <;> simp [UpdateSchema, honm]
  · intro hne hrce
    subst hne
    subst hrce
    cases re <;> simp [CreateSchema]
  · intro hge hnc hrue
    subst hge
    subst hnc
    subst hrue
    cases re <;> by_cases honm : onm = ureq.name <;> simp [UpdateSchema, honm]

end Vdt
